import Mathlib

/-!
Verification of the sticker-bot core (`src/bot.py`): the image-normalization
pipeline (`resize_to_sticker`), the pack registry helpers (`pack_exists`,
`create_pack`, `add_to_pack`, `init_bot_info`), the startup guard (`main`),
and the conversation state machine (`handle_photo_start`,
`handle_mode_selection`, and the dispatcher routing of callback queries).

Images are modelled at the level of their pixel dimensions; raw photo bytes
are opaque tokens; the Telegram transport, the background-removal engine and
the media download are modelled by an oracle recording the outcome of each
external call.  Pillow's `Image.thumbnail` size computation is embedded with
exact natural/rational arithmetic in place of the library's floats.
-/

namespace Bot

/-- An image, abstracted to its pixel dimensions (the normalizer only
inspects and transforms `img.size`). -/
structure Img where
  width : Nat
  height : Nat
deriving DecidableEq

/-- Pillow `thumbnail` rounding of the new width when the height is clamped
to 512 (branch `x / y >= aspect`): `round_aspect(y * aspect)` picks between
the floor and the ceiling of `512 * w / h` whichever makes the aspect ratio
closer (ties to the floor), then clamps to at least 1. -/
def roundAspectX (w h : Nat) : Nat :=
  let q := 512 * w / h
  let c := if 512 * w % h = 0 then q else q + 1
  let p := if Nat.dist (q * h) (512 * w) ≤ Nat.dist (c * h) (512 * w) then q else c
  max p 1

/-- Pillow `thumbnail` rounding of the new height when the width is clamped
to 512 (branch `x / y < aspect`): `round_aspect(x / aspect)` with key
`0 if n == 0 else abs(aspect - x / n)`; comparing the keys of the floor `q`
and ceiling `c` of `512 * h / w` cross-multiplies to
`|w * q - 512 * h| * c` vs `|w * c - 512 * h| * q`, and `q = 0` wins its
comparison outright (its key is 0); the result is clamped to at least 1. -/
def roundAspectY (w h : Nat) : Nat :=
  let q := 512 * h / w
  let c := if 512 * h % w = 0 then q else q + 1
  let p :=
    if q = 0 then q
    else if Nat.dist (w * q) (512 * h) * c ≤ Nat.dist (w * c) (512 * h) * q then q else c
  max p 1

/-- Dimension semantics of `img.thumbnail((512, 512), LANCZOS)` (Pillow):
no change when the image already fits in 512x512; otherwise scale down so
that the longer edge is 512 and the other edge is the aspect-preserving
rounding, at least 1. -/
def thumbDims (img : Img) : Img :=
  if img.width ≤ 512 ∧ img.height ≤ 512 then img
  else if img.width ≤ img.height then ⟨roundAspectX img.width img.height, 512⟩
  else ⟨512, roundAspectY img.width img.height⟩

/-- Result of the normalizer on one image: final dimensions, the crop box
passed to `img.crop` (left, top, right, bottom) if any, and whether a
resampling resize was performed. -/
structure NormResult where
  img : Img
  cropBox : Option (Nat × Nat × Nat × Nat)
  didResize : Bool
deriving DecidableEq

/-- Dimension-and-operation semantics of `resize_to_sticker` in
`src/bot.py` (lines 44-94), applied to the background-removed,
RGBA-converted image.  `mode == 'square'` crops the longer axis around the
center with integer floor division and resizes to exactly 512x512;
`mode == 'fit'` applies `thumbnail((512, 512))`; any other mode string
falls through both branches and the image is saved unchanged. -/
def resize_to_sticker (img : Img) (mode : String) : NormResult :=
  if mode = "square" then
    if img.width > img.height then
      let l := (img.width - img.height) / 2
      let r := (img.width + img.height) / 2
      ⟨⟨512, 512⟩, some (l, 0, r, img.height), true⟩
    else if img.height > img.width then
      let t := (img.height - img.width) / 2
      let b := (img.height + img.width) / 2
      ⟨⟨512, 512⟩, some (0, t, img.width, b), true⟩
    else ⟨⟨512, 512⟩, none, true⟩
  else if mode = "fit" then
    let d := thumbDims img
    ⟨d, none, decide (d ≠ img)⟩
  else ⟨img, none, false⟩

/-- Dimensions of the region actually cropped out of the original image:
the crop box if a crop was performed, the whole image otherwise. -/
def cropDims (n : NormResult) (orig : Img) : Img :=
  match n.cropBox with
  | some (l, t, r, b) => ⟨r - l, b - t⟩
  | none => orig

/-- Margins (left, right, top, bottom) left around the cropped region. -/
def cropMargins (n : NormResult) (orig : Img) : Nat × Nat × Nat × Nat :=
  match n.cropBox with
  | some (l, t, r, b) => (l, orig.width - r, t, orig.height - b)
  | none => (0, 0, 0, 0)

/-- Outcomes of a Telegram API call, as distinguished by the handlers:
`TelegramNotFound`, `TelegramBadRequest` (with its message text), and any
other exception. -/
inductive TgError where
  | notFound
  | badRequest (msg : String)
  | other (msg : String)
deriving DecidableEq

/-- The `str(e)` text of a Telegram exception as interpolated into
user-facing messages and logs. -/
def errMsg : TgError → String
  | .notFound => "Telegram server says Not Found"
  | .badRequest m => m
  | .other m => m

/-- `pack_exists` (lines 107-116): calls `bot.get_sticker_set`, returns
`True` on success; catches `TelegramNotFound` and returns `False`; catches
every other exception, logs it and returns `False`.  The returned pair is
(result, log lines emitted); the function is total — no exception escapes
to the caller. -/
def pack_exists (pack_name : String) (r : Except TgError Unit) : Bool × List String :=
  match r with
  | .ok _ => (true, [])
  | .error .notFound => (false, [])
  | .error e =>
      (false, ["Error checking pack existence for " ++ pack_name ++ ": " ++ errMsg e])

/-- The process configuration read from the environment at module load:
`BOT_TOKEN` (absent environment variable gives Python `None`) and
`OWNER_USER_ID` (absent gives `int(..., 0) = 0`). -/
structure BotConfig where
  token : Option String
  ownerId : Nat
deriving DecidableEq

/-- What `main` (lines 273-287) does before any event is served. -/
inductive StartOutcome where
  | abortedNoToken
  | served (warnedOwner : Bool)
deriving DecidableEq

/-- Startup guard of `main`: `if not TOKEN: return` aborts when the token
is unset or empty; `if not OWNER_ID: logger.warning(...)` only warns when
the owner id is 0 (unset), and the flow proceeds to `init_bot_info` and
`start_polling`. -/
def mainStartup (cfg : BotConfig) : StartOutcome :=
  if cfg.token = none ∨ cfg.token = some "" then .abortedNoToken
  else .served (cfg.ownerId = 0)

/-- ASCII lowercasing of a string, as `str.lower()` acts on Telegram bot
usernames (which are ASCII). -/
def lowerStr (s : String) : String := String.mk (s.data.map Char.toLower)

/-- The pack name computed by `init_bot_info` (line 104):
`f"{PACK_PREFIX}_by_{BOT_USERNAME}"` with the username lowercased. -/
def derivePackName (pre uname : String) : String := pre ++ "_by_" ++ lowerStr uname

/-- The module-level mutable process state touched by `init_bot_info`:
the cached `BOT_USERNAME` and `PACK_NAME` globals, plus a count of
`bot.get_me()` platform queries issued so far. -/
structure ProcSt where
  botUsername : Option String
  packName : Option String
  getMeCalls : Nat
deriving DecidableEq

/-- `init_bot_info` (lines 99-105): one `bot.get_me()` query, then the
globals are assigned; `main` invokes this exactly once per process. -/
def init_bot_info (pre uname : String) (s : ProcSt) : ProcSt :=
  { botUsername := some (lowerStr uname)
    packName := some (derivePackName pre uname)
    getMeCalls := s.getMeCalls + 1 }

/-- A later read of the cached `PACK_NAME` global: a pure lookup touching
no platform API. -/
def readPackName (s : ProcSt) : Option String × ProcSt := (s.packName, s)

/-- `n` successive reads of the cached pack name, returning the values
read and the final process state. -/
def runReads (s : ProcSt) : Nat → List (Option String) × ProcSt
  | 0 => ([], s)
  | n + 1 =>
      let (v, s1) := readPackName s
      let (vs, s2) := runReads s1 n
      (v :: vs, s2)

/-- The aiogram FSM view of one conversation: `fsm = some ()` is the
`StickerCreation.waiting_for_mode_selection` state, `none` is idle;
`photoBytes` and `waitMessageId` are the `photo_bytes` and
`wait_message_id` entries of the FSM data dict (raw photo bytes are an
opaque token); `statusText` is the current text of the status message
being edited in place. -/
structure Conv where
  fsm : Option Unit
  photoBytes : Option Nat
  waitMessageId : Option Nat
  statusText : String
deriving DecidableEq

/-- Externally visible calls a handler issues, in order. -/
inductive Action where
  | answerCb (txt : String)
  | sendMsg (txt : String)
  | editMsg (mid : Option Nat) (txt : String)
  | normalize (bytes : Nat) (mode : String)
  | callGetStickerSet
  | callCreate (img : Img)
  | callAdd (img : Img)
deriving DecidableEq

/-- Oracle fixing the outcome of each external collaborator call during
one handler run: media download, background removal plus decoding (giving
the dimensions of the processed image), the three pack-registry API calls,
and the behavior of `edit_message_text` — `editFail n` injects an
arbitrary transport failure into the n-th edit call of the run (counted
from 0), and `rejectUnmodified` says whether an accepted call whose text
is unchanged is rejected with Telegram's 400 "message is not modified". -/
structure Oracle where
  download : Except String Nat
  removeBg : Nat → Except String Img
  getStickerSet : Except TgError Unit
  createSticker : Except TgError Unit
  addSticker : Except TgError Unit
  rejectUnmodified : Bool
  editFail : Nat → Option TgError

/-- Result of running one handler: the conversation state afterwards, the
trace of external calls, and the exception escaping the handler if any. -/
structure StepResult where
  conv : Conv
  actions : List Action
  raised : Option TgError
deriving DecidableEq

/-- `state.clear()`: resets the FSM state and discards the data dict. -/
def clearState (c : Conv) : Conv :=
  { c with fsm := none, photoBytes := none, waitMessageId := none }

/-- `bot.edit_message_text`, as the `idx`-th edit call of the handler run:
the transport may fail the call outright (`editFail`), may reject an edit
whose content is unchanged, and otherwise updates the status text. -/
def doEdit (o : Oracle) (idx : Nat) (c : Conv) (txt : String) : Except TgError Conv :=
  match o.editFail idx with
  | some e => .error e
  | none =>
      if o.rejectUnmodified = true ∧ c.statusText = txt then
        .error (.badRequest "message is not modified")
      else .ok { c with statusText := txt }

/-- Text of the acknowledgment message sent on photo receipt (line 164). -/
def ackText : String := "Photo received. Downloading and running background removal..."

/-- Text of the mode-choice prompt (line 193). -/
def promptText : String :=
  "✅ Background removed! Please choose the final scaling mode for your sticker (512x512 max):"

/-- Text sent when the pending photo bytes are missing (line 221). -/
def resendText : String :=
  "❌ Error: Original image data not found. Please resend the photo."

/-- The shareable pack link (lines 153, 230). -/
def packLink (pack_name : String) : String := "https://t.me/addstickers/" ++ pack_name

/-- Success text after creating the pack (line 235). -/
def createdText (mode pn : String) : String :=
  "✅ Sticker pack created! Your " ++ mode ++ " sticker has been added.\nAdd it here: " ++
    packLink pn

/-- Success text after appending to the pack (line 238). -/
def addedText (mode pn : String) : String :=
  "✅ " ++ mode ++ " sticker added to the shared pack!\nSee: " ++ packLink pn

/-- The `except ValueError` arm (line 247), with the cause text wrapped by
`resize_to_sticker` at line 97. -/
def procErrText (e : String) : String :=
  "❌ Sticker creation failed during processing. Details: Image processing failed: " ++ e

/-- The `except TelegramBadRequest` / `except Exception` arms of
`handle_mode_selection` (lines 248-252): the user-facing text chosen for a
Telegram exception raised inside the `try` block. -/
def tgErrText (e : TgError) : String :=
  match e with
  | .badRequest m => "❌ Telegram API Error: Failed to add sticker. (Details: " ++ m ++ ")"
  | e => "❌ An unexpected error occurred during finalization. Details: " ++ errMsg e

/-- A reporting edit (as the `idx`-th edit call of the run) followed by
`state.clear()`: every path of `handle_mode_selection` ends in this shape
— the edit at line 254 then the clear at line 259, and likewise the
missing-bytes early return at lines 218-224 and the photo handler's
except arm at lines 199-204.  If the edit raises, the exception escapes
the handler and the state is left untouched. -/
def finalEdit (o : Oracle) (idx : Nat) (c : Conv) (acts : List Action) (ft : String) :
    StepResult :=
  match doEdit o idx c ft with
  | .error e => ⟨c, acts ++ [.editMsg c.waitMessageId ft], some e⟩
  | .ok c1 => ⟨clearState c1, acts ++ [.editMsg c.waitMessageId ft], none⟩

/-- The success path tail: the edit at line 240 (the first edit call of
the run) is still inside the `try`, so its failure is caught and converted
to an error text (lines 248-252) before the unconditional edit at line 254
(the second edit call); its success falls through to the line-254 edit
with the same `final_text`. -/
def successEdits (o : Oracle) (c : Conv) (acts : List Action) (ft : String) : StepResult :=
  match doEdit o 0 c ft with
  | .ok c1 => finalEdit o 1 c1 (acts ++ [.editMsg c.waitMessageId ft]) ft
  | .error e => finalEdit o 1 c (acts ++ [.editMsg c.waitMessageId ft]) (tgErrText e)

/-- `str.split('_')` on the character list of the callback data. -/
def splitU : List Char → List (List Char)
  | [] => [[]]
  | ch :: cs =>
      match splitU cs with
      | [] => [[]]
      | g :: gs => if ch = '_' then [] :: g :: gs else (ch :: g) :: gs

/-- `callback_query.data.split('_')[1]` (line 215): the token between the
first and second underscore (empty when there is no second part, which the
`mode_` filter rules out). -/
def extractMode (d : String) : String :=
  match splitU d.data with
  | _ :: t :: _ => String.mk t
  | _ => ""

/-- The `F.data.startswith("mode_")` filter at line 207. -/
def hasModePre (l : List Char) : Bool :=
  match l with
  | 'm' :: 'o' :: 'd' :: 'e' :: '_' :: _ => true
  | _ => false

/-- `handle_mode_selection` (lines 207-259), run against the oracle with
the cached pack name `pn`.  Follows the source line by line: answer the
callback, read the FSM data, extract the mode, early-return with a resend
message when the bytes are missing; otherwise normalize, check pack
existence (which never raises), create or append, and report — every
caught exception is turned into a `final_text` and the flow funnels into
the edit-then-clear tail. -/
def handle_mode_selection (o : Oracle) (pn : String) (c : Conv) (cbData : String) :
    StepResult :=
  let acts0 : List Action := [.answerCb "Processing your choice..."]
  let mode := extractMode cbData
  match c.photoBytes with
  | none => finalEdit o 0 c acts0 resendText
  | some bytes =>
      let acts1 := acts0 ++ [.normalize bytes mode]
      match o.removeBg bytes with
      | .error e => finalEdit o 0 c acts1 (procErrText e)
      | .ok img =>
          let res := resize_to_sticker img mode
          let acts2 := acts1 ++ [.callGetStickerSet]
          if (pack_exists pn o.getStickerSet).1 = false then
            let acts3 := acts2 ++ [.callCreate res.img]
            match o.createSticker with
            | .error e => finalEdit o 0 c acts3 (tgErrText e)
            | .ok _ => successEdits o c acts3 (createdText mode pn)
          else
            let acts3 := acts2 ++ [.callAdd res.img]
            match o.addSticker with
            | .error e => finalEdit o 0 c acts3 (tgErrText e)
            | .ok _ => successEdits o c acts3 (addedText mode pn)

/-- Dispatcher routing of a callback query: `handle_mode_selection` is
registered with the filters `StickerCreation.waiting_for_mode_selection`
and `F.data.startswith("mode_")` (line 207); an update matching neither
handler is dropped by aiogram without any user-visible response. -/
def dispatchCallback (o : Oracle) (pn : String) (c : Conv) (d : String) : StepResult :=
  if c.fsm = some () ∧ hasModePre d.data = true then handle_mode_selection o pn c d
  else ⟨c, [], none⟩

/-- `handle_photo_start` (lines 160-204): send the acknowledgment message
(whose id is `mid`), download the photo bytes, store them and the message
id in the FSM data, enter `waiting_for_mode_selection`, and replace the
acknowledgment with the mode prompt; any exception inside the `try` leads
to an error edit and `state.clear()`. -/
def handle_photo_start (o : Oracle) (c : Conv) (mid : Nat) : StepResult :=
  let c0 := { c with statusText := ackText }
  let acts0 : List Action := [.sendMsg ackText]
  match o.download with
  | .error e =>
      let et := "❌ Failed to process photo for scaling. Details: " ++ e
      finalEdit o 0 c0 acts0 et
  | .ok bytes =>
      let c1 :=
        { c0 with
          photoBytes := some bytes
          waitMessageId := some mid
          fsm := some () }
      match doEdit o 0 c1 promptText with
      | .ok c2 => ⟨c2, acts0 ++ [.editMsg (some mid) promptText], none⟩
      | .error ex =>
          let et := "❌ Failed to process photo for scaling. Details: " ++ errMsg ex
          finalEdit o 1 c1 (acts0 ++ [.editMsg (some mid) promptText]) et

/-! ## Helper lemmas -/

/-- Whatever tie-break the `round_aspect` key picks, the result is the
floor or the ceiling of `512 * w / h`, clamped below by 1. -/
lemma roundAspectX_shape (w h : Nat) :
    ∃ p, roundAspectX w h = max p 1 ∧
      (p = 512 * w / h ∨ (p = 512 * w / h + 1 ∧ 512 * w % h ≠ 0)) := by
  by_cases h0 : 512 * w % h = 0
  · exact ⟨512 * w / h, by simp [roundAspectX, h0], Or.inl rfl⟩
  · by_cases hkey : Nat.dist (512 * w / h * h) (512 * w) ≤
        Nat.dist ((512 * w / h + 1) * h) (512 * w)
    · exact ⟨512 * w / h, by simp [roundAspectX, h0, hkey], Or.inl rfl⟩
    · exact ⟨512 * w / h + 1, by simp [roundAspectX, h0, hkey], Or.inr ⟨rfl, h0⟩⟩

/-- Same for the other branch, whose key comparison is cross-multiplied
and treats a zero floor as an immediate winner. -/
lemma roundAspectY_shape (w h : Nat) :
    ∃ p, roundAspectY w h = max p 1 ∧
      (p = 512 * h / w ∨ (p = 512 * h / w + 1 ∧ 512 * h % w ≠ 0)) := by
  by_cases hq0 : 512 * h / w = 0
  · exact ⟨512 * h / w, by simp [roundAspectY, hq0], Or.inl rfl⟩
  · by_cases h0 : 512 * h % w = 0
    · exact ⟨512 * h / w, by simp [roundAspectY, hq0, h0], Or.inl rfl⟩
    · by_cases hkey : Nat.dist (w * (512 * h / w)) (512 * h) * (512 * h / w + 1) ≤
          Nat.dist (w * (512 * h / w + 1)) (512 * h) * (512 * h / w)
      · exact ⟨512 * h / w, by simp [roundAspectY, hq0, h0, hkey], Or.inl rfl⟩
      · exact ⟨512 * h / w + 1, by simp [roundAspectY, hq0, h0, hkey], Or.inr ⟨rfl, h0⟩⟩

/-- Core bound for the thumbnail scaling of the short edge: when the image
is strictly larger than 512 on its long edge `b` and the short edge is
`a ≤ b`, the rounded short edge `max p 1` is at most 512, never enlarged
past `a`, and preserves the aspect ratio within one rounding unit:
`|p' * b - 512 * a| < b`. -/
lemma scaled_bound (a b p : Nat) (ha : 0 < a) (hab : a ≤ b) (hb : 512 < b)
    (hp : p = 512 * a / b ∨ (p = 512 * a / b + 1 ∧ 512 * a % b ≠ 0)) :
    max p 1 ≤ 512 ∧ max p 1 ≤ a ∧ Nat.dist (max p 1 * b) (512 * a) < b := by
  have hb0 : 0 < b := by omega
  have hdm : b * (512 * a / b) + 512 * a % b = 512 * a := Nat.div_add_mod _ _
  have hmlt : 512 * a % b < b := Nat.mod_lt _ hb0
  have hq512 : 512 * a / b ≤ 512 := by
    have h2 : 512 * a / b ≤ 512 * b / b := Nat.div_le_div_right (mul_le_mul_left' hab 512)
    have h3 : 512 * b / b = 512 := by rw [mul_comm]; exact Nat.mul_div_cancel_left _ hb0
    omega
  have hqa : 512 * a / b ≤ a := by
    have h2 : 512 * a / b ≤ 512 * a / 512 := Nat.div_le_div_left (le_of_lt hb) (by norm_num)
    have h3 : 512 * a / 512 = a := Nat.mul_div_cancel_left _ (by norm_num)
    omega
  have himp1 : 512 ≤ 512 * a / b → 512 * b ≤ b * (512 * a / b) := fun h => by
    calc 512 * b ≤ 512 * a / b * b := Nat.mul_le_mul_right _ h
      _ = b * (512 * a / b) := by ring
  have himp2 : a ≤ 512 * a / b → a * b ≤ 512 * a := fun h =>
    (Nat.le_div_iff_mul_le hb0).mp h
  have hab2 : 512 * a ≤ 512 * b := mul_le_mul_left' hab 512
  have hab3 : a * 512 < a * b := mul_lt_mul_of_pos_left hb ha
  set q := 512 * a / b with hQ
  set r := 512 * a % b with hR
  clear_value q r
  clear hQ hR
  rcases hp with hp | ⟨hp, hr0⟩
  · rw [hp]
    rcases Nat.eq_zero_or_pos q with h0 | h1
    · subst h0
      rw [Nat.mul_zero, Nat.zero_add] at hdm
      have hmax : max 0 1 = 1 := rfl
      rw [hmax, one_mul]
      simp only [Nat.dist]
      omega
    · have hmax : max q 1 = q := by omega
      rw [hmax]
      refine ⟨hq512, hqa, ?_⟩
      rw [mul_comm q b]
      simp only [Nat.dist]
      omega
  · rw [hp]
    have hmax : max (q + 1) 1 = q + 1 := by omega
    rw [hmax]
    have hle512 : q + 1 ≤ 512 := by
      by_contra hcon
      have h512 : 512 ≤ q := by omega
      have h1 := himp1 h512
      omega
    have hlea : q + 1 ≤ a := by
      by_contra hcon
      have hle : a ≤ q := by omega
      have h1 := himp2 hle
      omega
    refine ⟨hle512, hlea, ?_⟩
    have hexp : (q + 1) * b = b * q + b := by ring
    rw [hexp]
    simp only [Nat.dist]
    omega

/-- Unfolding of the normalizer in square mode. -/
lemma resize_square_eq (img : Img) :
    resize_to_sticker img "square" =
      (if img.width > img.height then
        ⟨⟨512, 512⟩,
          some ((img.width - img.height) / 2, 0, (img.width + img.height) / 2, img.height),
          true⟩
      else if img.height > img.width then
        ⟨⟨512, 512⟩,
          some (0, (img.height - img.width) / 2, img.width, (img.height + img.width) / 2),
          true⟩
      else ⟨⟨512, 512⟩, none, true⟩) := rfl

/-- Unfolding of the normalizer in fit mode. -/
lemma resize_fit_eq (img : Img) :
    resize_to_sticker img "fit" =
      ⟨thumbDims img, none, decide (thumbDims img ≠ img)⟩ := rfl

/-- Unfolding of the normalizer for any unrecognized mode string. -/
lemma resize_other_eq (img : Img) (mode : String) (h1 : mode ≠ "fit")
    (h2 : mode ≠ "square") :
    resize_to_sticker img mode = ⟨img, none, false⟩ := by
  unfold resize_to_sticker
  rw [if_neg h2, if_neg h1]

/-- If the edit-then-clear tail completes without raising, the session has
been cleared. -/
lemma finalEdit_clears (o : Oracle) (idx : Nat) (c : Conv) (acts : List Action)
    (ft : String) (h : (finalEdit o idx c acts ft).raised = none) :
    (finalEdit o idx c acts ft).conv.fsm = none ∧
    (finalEdit o idx c acts ft).conv.photoBytes = none := by
  cases hd : doEdit o idx c ft with
  | error e => simp [finalEdit, hd] at h
  | ok c1 => simp [finalEdit, hd, clearState]

/-- Same through the duplicated success edit. -/
lemma successEdits_clears (o : Oracle) (c : Conv) (acts : List Action) (ft : String)
    (h : (successEdits o c acts ft).raised = none) :
    (successEdits o c acts ft).conv.fsm = none ∧
    (successEdits o c acts ft).conv.photoBytes = none := by
  cases hd : doEdit o 0 c ft with
  | ok c1 =>
      have h2 : (finalEdit o 1 c1 (acts ++ [.editMsg c.waitMessageId ft]) ft).raised
          = none := by
        simpa [successEdits, hd] using h
      simpa [successEdits, hd] using finalEdit_clears o 1 c1 _ ft h2
  | error e =>
      have h2 : (finalEdit o 1 c (acts ++ [.editMsg c.waitMessageId ft])
          (tgErrText e)).raised = none := by
        simpa [successEdits, hd] using h
      simpa [successEdits, hd] using finalEdit_clears o 1 c _ (tgErrText e) h2

/-- The edit-then-clear tail only appends to the action trace. -/
lemma finalEdit_mem (o : Oracle) (idx : Nat) (c : Conv) (acts : List Action)
    (ft : String) (a : Action) (ha : a ∈ acts) :
    a ∈ (finalEdit o idx c acts ft).actions := by
  cases hd : doEdit o idx c ft with
  | error e => simp [finalEdit, hd, List.mem_append, ha]
  | ok c1 => simp [finalEdit, hd, List.mem_append, ha]

/-- The success-path double edit only appends to the action trace. -/
lemma successEdits_mem (o : Oracle) (c : Conv) (acts : List Action) (ft : String)
    (a : Action) (ha : a ∈ acts) : a ∈ (successEdits o c acts ft).actions := by
  cases hd : doEdit o 0 c ft with
  | ok c1 =>
      simpa [successEdits, hd] using finalEdit_mem o 1 c1 _ ft a (by simp [ha])
  | error e =>
      simpa [successEdits, hd] using finalEdit_mem o 1 c _ (tgErrText e) a (by simp [ha])

/-- An accepted edit sets exactly the status text. -/
lemma doEdit_ok_eq (o : Oracle) (idx : Nat) (c1 c2 : Conv) (txt : String)
    (h : doEdit o idx c1 txt = .ok c2) : c2 = { c1 with statusText := txt } := by
  unfold doEdit at h
  cases he : o.editFail idx with
  | some e => simp [he] at h
  | none =>
      by_cases hc : o.rejectUnmodified = true ∧ c1.statusText = txt
      · simp [he, hc] at h
      · simp [he, hc] at h
        exact h.symm

/-- The duplicated success edit in full: given that the first edit (call 0)
is not failed by the transport and the current status text differs from the
final text, the trace carries the two identical edits; the session ends
cleared exactly when the second edit (call 1) is accepted, and any failure
of the second edit — an injected transport failure or the unchanged-text
rejection — escapes with the session untouched. -/
lemma successEdits_double (o : Oracle) (c : Conv) (acts : List Action) (ft : String)
    (hst : c.statusText ≠ ft) (h0 : o.editFail 0 = none) :
    (successEdits o c acts ft).actions =
      acts ++ [.editMsg c.waitMessageId ft, .editMsg c.waitMessageId ft] ∧
    (o.rejectUnmodified = false → o.editFail 1 = none →
      (successEdits o c acts ft).raised = none ∧
      (successEdits o c acts ft).conv.fsm = none ∧
      (successEdits o c acts ft).conv.photoBytes = none) ∧
    (o.rejectUnmodified = true → o.editFail 1 = none →
      (successEdits o c acts ft).raised = some (.badRequest "message is not modified") ∧
      (successEdits o c acts ft).conv.fsm = c.fsm ∧
      (successEdits o c acts ft).conv.photoBytes = c.photoBytes) ∧
    (∀ e, o.editFail 1 = some e →
      (successEdits o c acts ft).raised = some e ∧
      (successEdits o c acts ft).conv.fsm = c.fsm ∧
      (successEdits o c acts ft).conv.photoBytes = c.photoBytes) := by
  have hd1 : doEdit o 0 c ft = .ok { c with statusText := ft } := by
    unfold doEdit
    rw [h0, if_neg (fun h => hst h.2)]
  cases h1 : o.editFail 1 with
  | some e =>
      have hd2 : doEdit o 1 { c with statusText := ft } ft = .error e := by
        unfold doEdit
        rw [h1]
      simp [successEdits, finalEdit, hd1, hd2, h1]
  | none =>
      cases hru : o.rejectUnmodified with
      | false =>
          have hd2 : doEdit o 1 { c with statusText := ft } ft =
              .ok { c with statusText := ft } := by
            unfold doEdit
            rw [h1, if_neg (by simp [hru])]
          simp [successEdits, finalEdit, hd1, hd2, clearState, hru, h1]
      | true =>
          have hd2 : doEdit o 1 { c with statusText := ft } ft =
              .error (.badRequest "message is not modified") := by
            unfold doEdit
            rw [h1, if_pos ⟨hru, rfl⟩]
          simp [successEdits, finalEdit, hd1, hd2, hru, h1]

/-- A list of characters without an underscore is a single split group. -/
lemma splitU_no_underscore (l : List Char) (h : '_' ∉ l) : splitU l = [l] := by
  induction l with
  | nil => rfl
  | cons ch cs ih =>
      have h1 : ch ≠ '_' := fun he => h (he ▸ List.mem_cons_self ch cs)
      have h2 : '_' ∉ cs := fun hm => h (List.mem_cons_of_mem ch hm)
      simp [splitU, ih h2, h1]

/-- The success tail is itself an edit-then-clear tail. -/
lemma successEdits_shape (o : Oracle) (c : Conv) (acts : List Action) (ft : String) :
    ∃ i c2 acts2 ft2, successEdits o c acts ft = finalEdit o i c2 acts2 ft2 := by
  cases hd : doEdit o 0 c ft with
  | ok c1 =>
      exact ⟨1, c1, acts ++ [.editMsg c.waitMessageId ft], ft,
        by simp [successEdits, hd]⟩
  | error e =>
      exact ⟨1, c, acts ++ [.editMsg c.waitMessageId ft], tgErrText e,
        by simp [successEdits, hd]⟩

/-- Every run of the mode-selection handler ends in the edit-then-clear
tail. -/
lemma handle_mode_shape (o : Oracle) (pn : String) (c : Conv) (d : String) :
    ∃ i c2 acts2 ft2, handle_mode_selection o pn c d = finalEdit o i c2 acts2 ft2 := by
  unfold handle_mode_selection
  cases hpb : c.photoBytes with
  | none => exact ⟨0, c, _, resendText, rfl⟩
  | some b =>
      dsimp only
      cases hrb : o.removeBg b with
      | error e => exact ⟨0, c, _, procErrText e, rfl⟩
      | ok img =>
          dsimp only
          by_cases hex : (pack_exists pn o.getStickerSet).1 = false
          · rw [if_pos hex]
            cases hcr : o.createSticker with
            | error e => exact ⟨0, c, _, tgErrText e, rfl⟩
            | ok u => exact successEdits_shape o c _ _
          · rw [if_neg hex]
            cases had : o.addSticker with
            | error e => exact ⟨0, c, _, tgErrText e, rfl⟩
            | ok u => exact successEdits_shape o c _ _

/-- The pack-name reads are pure: the process state is untouched and every
read returns the cached value. -/
lemma runReads_spec (s : ProcSt) (n : Nat) :
    (runReads s n).2 = s ∧ ∀ v ∈ (runReads s n).1, v = s.packName := by
  induction n with
  | zero => simp [runReads]
  | succ k ih =>
      refine ⟨by simpa [runReads, readPackName] using ih.1, ?_⟩
      intro v hv
      simp only [runReads, readPackName] at hv
      rcases List.mem_cons.mp hv with h | h
      · exact h
      · exact ih.2 v h

/-! ## Claim theorems -/

/-- C3: for every input image in square mode, the output is exactly
512x512, the cropped region is a square whose side is the shorter of the
input dimensions, and the crop is centered — the two margins on the
cropped axis differ by at most one pixel. -/
theorem c3_square_exact_and_centered (w h : Nat) :
    (resize_to_sticker ⟨w, h⟩ "square").img = ⟨512, 512⟩ ∧
    cropDims (resize_to_sticker ⟨w, h⟩ "square") ⟨w, h⟩ = ⟨min w h, min w h⟩ ∧
    Nat.dist (cropMargins (resize_to_sticker ⟨w, h⟩ "square") ⟨w, h⟩).1
      (cropMargins (resize_to_sticker ⟨w, h⟩ "square") ⟨w, h⟩).2.1 ≤ 1 ∧
    Nat.dist (cropMargins (resize_to_sticker ⟨w, h⟩ "square") ⟨w, h⟩).2.2.1
      (cropMargins (resize_to_sticker ⟨w, h⟩ "square") ⟨w, h⟩).2.2.2 ≤ 1 := by
  rw [resize_square_eq]
  rcases Nat.lt_trichotomy w h with hlt | heq | hgt
  · rw [if_neg (by simpa using by omega : ¬ ((Img.mk w h).width > (Img.mk w h).height)),
      if_pos (by simpa using hlt : (Img.mk w h).height > (Img.mk w h).width)]
    refine ⟨rfl, ?_, ?_, ?_⟩
    · simp only [cropDims, Img.mk.injEq]
      omega
    · simp only [cropMargins, Nat.dist]
      omega
    · simp only [cropMargins, Nat.dist]
      omega
  · rw [if_neg (by simpa using by omega : ¬ ((Img.mk w h).width > (Img.mk w h).height)),
      if_neg (by simpa using by omega : ¬ ((Img.mk w h).height > (Img.mk w h).width))]
    refine ⟨rfl, ?_, ?_, ?_⟩
    · simp only [cropDims, Img.mk.injEq]
      omega
    · simp only [cropMargins, Nat.dist]
      omega
    · simp only [cropMargins, Nat.dist]
      omega
  · rw [if_pos (by simpa using hgt : (Img.mk w h).width > (Img.mk w h).height)]
    refine ⟨rfl, ?_, ?_, ?_⟩
    · simp only [cropDims, Img.mk.injEq]
      omega
    · simp only [cropMargins, Nat.dist]
      omega
    · simp only [cropMargins, Nat.dist]
      omega

/-- C4: for every input image in fit mode, no cropping occurs, the output
fits within 512x512, the image is never enlarged (inputs already within
512x512 are returned unchanged), and the aspect ratio is preserved within
rounding: the cross-multiplied difference of the two ratios is below one
rounding unit of the longer edge. -/
theorem c4_fit_bounds_and_aspect (w h : Nat) (hw : 0 < w) (hh : 0 < h) :
    (resize_to_sticker ⟨w, h⟩ "fit").cropBox = none ∧
    (resize_to_sticker ⟨w, h⟩ "fit").img.width ≤ 512 ∧
    (resize_to_sticker ⟨w, h⟩ "fit").img.height ≤ 512 ∧
    (resize_to_sticker ⟨w, h⟩ "fit").img.width ≤ w ∧
    (resize_to_sticker ⟨w, h⟩ "fit").img.height ≤ h ∧
    (w ≤ 512 → h ≤ 512 → (resize_to_sticker ⟨w, h⟩ "fit").img = ⟨w, h⟩) ∧
    Nat.dist ((resize_to_sticker ⟨w, h⟩ "fit").img.width * h)
      ((resize_to_sticker ⟨w, h⟩ "fit").img.height * w) < max w h := by
  rw [resize_fit_eq]
  by_cases hb : w ≤ 512 ∧ h ≤ 512
  · have ht : thumbDims ⟨w, h⟩ = ⟨w, h⟩ := by
      simp only [thumbDims]
      rw [if_pos (by simpa using hb)]
    rw [ht]
    refine ⟨rfl, by simpa using hb.1, by simpa using hb.2, le_rfl, le_rfl,
      fun _ _ => rfl, ?_⟩
    show Nat.dist (w * h) (h * w) < max w h
    rw [mul_comm h w, Nat.dist_self]
    omega
  · by_cases hwh : w ≤ h
    · have hh512 : 512 < h := by omega
      have ht : thumbDims ⟨w, h⟩ = ⟨roundAspectX w h, 512⟩ := by
        simp only [thumbDims]
        rw [if_neg (by simpa using hb), if_pos (by simpa using hwh)]
      rw [ht]
      obtain ⟨p, hpe, hpd⟩ := roundAspectX_shape w h
      rw [hpe]
      have hsb := scaled_bound w h p hw hwh hh512 hpd
      refine ⟨rfl, hsb.1, show (512 : Nat) ≤ 512 from le_rfl, hsb.2.1,
        show (512 : Nat) ≤ h by omega, fun h1 h2 => absurd ⟨h1, h2⟩ hb, ?_⟩
      show Nat.dist (max p 1 * h) (512 * w) < max w h
      have hmx : max w h = h := by omega
      rw [hmx]
      exact hsb.2.2
    · have hw512 : 512 < w := by omega
      have ht : thumbDims ⟨w, h⟩ = ⟨512, roundAspectY w h⟩ := by
        simp only [thumbDims]
        rw [if_neg (by simpa using hb), if_neg (by simpa using hwh)]
      rw [ht]
      obtain ⟨p, hpe, hpd⟩ := roundAspectY_shape w h
      rw [hpe]
      have hsb := scaled_bound h w p hh (by omega) hw512 hpd
      refine ⟨rfl, show (512 : Nat) ≤ 512 from le_rfl, hsb.1,
        show (512 : Nat) ≤ w by omega, hsb.2.1,
        fun h1 h2 => absurd ⟨h1, h2⟩ hb, ?_⟩
      show Nat.dist (512 * h) (max p 1 * w) < max w h
      have hmx : max w h = w := by omega
      rw [hmx, Nat.dist_comm]
      exact hsb.2.2

/-- Concrete oracle for the create-race scenario: the existence probe says
not-found and the create call then fails with Telegram's already-occupied
bad request. -/
def oC1 : Oracle :=
  { download := .ok 0
    removeBg := fun _ => .ok ⟨800, 600⟩
    getStickerSet := .error .notFound
    createSticker := .error (.badRequest "sticker set name is already occupied")
    addSticker := .ok ()
    rejectUnmodified := false
    editFail := fun _ => none }

/-- Concrete conversation awaiting a mode choice. -/
def cC1 : Conv :=
  { fsm := some (), photoBytes := some 7, waitMessageId := some 3,
    statusText := promptText }

/-- C1 counterexample: when `pack_exists` returns false and the create
call fails with an already-exists bad request, the handler reports the
hard Telegram API error to the user — there is no append fallback and no
optimistic success report, refuting the claim at this input. -/
theorem c1_counterexample :
    (handle_mode_selection oC1 "funstickers_by_testbot" cC1 "mode_square").actions =
      [.answerCb "Processing your choice...",
       .normalize 7 "square",
       .callGetStickerSet,
       .callCreate ⟨512, 512⟩,
       .editMsg (some 3)
         ("❌ Telegram API Error: Failed to add sticker. " ++
          "(Details: sticker set name is already occupied)")] ∧
    (handle_mode_selection oC1 "funstickers_by_testbot" cC1 "mode_square").raised =
      none := by decide

/-- C1 (amended): if the existence check returns false and the create call
fails with an already-exists `TelegramBadRequest`, the flow does not fall
back to append and does not report success: it reports the Telegram API
error text to the user and clears the session (when the reporting edit is
accepted); the exception itself does not escape past the reporting edit. -/
theorem c1_amended_create_race_reports_error (o : Oracle) (pn : String) (c : Conv)
    (d : String) (b : Nat) (img : Img) (m : String)
    (hb : c.photoBytes = some b)
    (hrb : o.removeBg b = .ok img)
    (hex : (pack_exists pn o.getStickerSet).1 = false)
    (hcr : o.createSticker = .error (.badRequest m)) :
    (handle_mode_selection o pn c d).actions =
      [.answerCb "Processing your choice...",
       .normalize b (extractMode d),
       .callGetStickerSet,
       .callCreate (resize_to_sticker img (extractMode d)).img,
       .editMsg c.waitMessageId (tgErrText (.badRequest m))] ∧
    (∀ i : Img, Action.callAdd i ∉ (handle_mode_selection o pn c d).actions) ∧
    ((handle_mode_selection o pn c d).raised = none →
      (handle_mode_selection o pn c d).conv.fsm = none ∧
      (handle_mode_selection o pn c d).conv.photoBytes = none) := by
  have hred : handle_mode_selection o pn c d =
      finalEdit o 0 c
        [.answerCb "Processing your choice...",
         .normalize b (extractMode d),
         .callGetStickerSet,
         .callCreate (resize_to_sticker img (extractMode d)).img]
        (tgErrText (.badRequest m)) := by
    unfold handle_mode_selection
    simp only [hb, hrb, if_pos hex, hcr]
    rfl
  rw [hred]
  refine ⟨?_, ?_, fun h => finalEdit_clears _ _ _ _ _ h⟩
  · cases hd : doEdit o 0 c (tgErrText (.badRequest m)) <;>
      simp [finalEdit, hd]
  · intro i
    cases hd : doEdit o 0 c (tgErrText (.badRequest m)) <;>
      simp [finalEdit, hd]

/-- C1 witness: the amended theorem applied to the concrete race input. -/
theorem c1_amended_create_race_reports_error_witness :
    cC1.photoBytes = some 7 ∧
    oC1.removeBg 7 = .ok ⟨800, 600⟩ ∧
    (pack_exists "funstickers_by_testbot" oC1.getStickerSet).1 = false ∧
    oC1.createSticker = .error (.badRequest "sticker set name is already occupied") ∧
    (∀ i : Img, Action.callAdd i ∉
      (handle_mode_selection oC1 "funstickers_by_testbot" cC1 "mode_square").actions) :=
  ⟨rfl, rfl, rfl, rfl,
    (c1_amended_create_race_reports_error oC1 "funstickers_by_testbot" cC1
      "mode_square" 7 ⟨800, 600⟩ "sticker set name is already occupied"
      rfl rfl rfl rfl).2.1⟩

/-- Concrete oracle for the stale-callback scenarios (all remote calls
would succeed). -/
def oC2 : Oracle :=
  { download := .ok 0
    removeBg := fun _ => .ok ⟨10, 10⟩
    getStickerSet := .error .notFound
    createSticker := .ok ()
    addSticker := .ok ()
    rejectUnmodified := false
    editFail := fun _ => none }

/-- C2 counterexample: a mode-choice callback delivered while the
conversation is idle does not match the handler filter, so the dispatcher
drops it without any external call — in particular the user receives no
resend-the-photo message, refuting the idle half of the claim. -/
theorem c2_counterexample :
    (dispatchCallback oC2 "funstickers_by_testbot"
        { fsm := none, photoBytes := none, waitMessageId := none, statusText := "" }
        "mode_fit").actions = [] ∧
    (dispatchCallback oC2 "funstickers_by_testbot"
        { fsm := none, photoBytes := none, waitMessageId := none, statusText := "" }
        "mode_fit").conv =
      { fsm := none, photoBytes := none, waitMessageId := none, statusText := "" } := by
  decide

/-- C2 (amended): a mode-choice callback that reaches the handler (session
in the waiting state) with no pending photo bytes answers the callback,
edits the status message to the resend-photo error, never invokes the
Normalizer or the Registry, and clears the session when the edit is
accepted; a callback arriving while idle is dropped by the dispatcher with
no user-visible message and no Normalizer or Registry call either. -/
theorem c2_amended_stale_callback (o : Oracle) (pn : String) (c : Conv) (d : String) :
    (c.fsm = some () → hasModePre d.data = true → c.photoBytes = none →
      (dispatchCallback o pn c d).actions =
        [.answerCb "Processing your choice...", .editMsg c.waitMessageId resendText] ∧
      (∀ b m, Action.normalize b m ∉ (dispatchCallback o pn c d).actions) ∧
      Action.callGetStickerSet ∉ (dispatchCallback o pn c d).actions ∧
      (∀ i, Action.callCreate i ∉ (dispatchCallback o pn c d).actions) ∧
      (∀ i, Action.callAdd i ∉ (dispatchCallback o pn c d).actions) ∧
      ((dispatchCallback o pn c d).raised = none →
        (dispatchCallback o pn c d).conv.fsm = none ∧
        (dispatchCallback o pn c d).conv.photoBytes = none)) ∧
    (c.fsm = none → dispatchCallback o pn c d = ⟨c, [], none⟩) := by
  constructor
  · intro hf hm hpb
    have hred : dispatchCallback o pn c d =
        finalEdit o 0 c [.answerCb "Processing your choice..."] resendText := by
      unfold dispatchCallback handle_mode_selection
      rw [if_pos ⟨hf, hm⟩]
      simp only [hpb]
    rw [hred]
    refine ⟨?_, ?_, ?_, ?_, ?_, fun h => finalEdit_clears _ _ _ _ _ h⟩ <;>
      cases hd : doEdit o 0 c resendText <;> simp [finalEdit, hd]
  · intro hf
    unfold dispatchCallback
    rw [if_neg]
    simp [hf]

/-- C2 witness: the amended theorem applied to a waiting session with
missing bytes and to an idle session. -/
theorem c2_amended_stale_callback_witness :
    ((dispatchCallback oC2 "pn2"
        { fsm := some (), photoBytes := none, waitMessageId := some 4,
          statusText := promptText } "mode_square").actions =
      [.answerCb "Processing your choice...", .editMsg (some 4) resendText]) ∧
    (dispatchCallback oC2 "pn2"
        { fsm := none, photoBytes := none, waitMessageId := none, statusText := "" }
        "mode_square" =
      ⟨{ fsm := none, photoBytes := none, waitMessageId := none, statusText := "" },
        [], none⟩) :=
  ⟨((c2_amended_stale_callback oC2 "pn2" _ "mode_square").1 rfl (by decide) rfl).1,
    (c2_amended_stale_callback oC2 "pn2" _ "mode_square").2 rfl⟩

/-- Concrete oracle for the persisted-session scenario: everything
succeeds but the transport rejects the duplicated unchanged success
edit. -/
def oC5 : Oracle :=
  { download := .ok 0
    removeBg := fun _ => .ok ⟨640, 480⟩
    getStickerSet := .error .notFound
    createSticker := .ok ()
    addSticker := .ok ()
    rejectUnmodified := true
    editFail := fun _ => none }

/-- Concrete conversation awaiting a mode choice. -/
def cC5 : Conv :=
  { fsm := some (), photoBytes := some 5, waitMessageId := some 9,
    statusText := promptText }

/-- C5 counterexample: a successful publish (the create call is issued and
succeeds) whose duplicated final edit is rejected by the transport leaves
the handler raising and the session still populated — a terminal
transition after which the session persists, refuting the claim. -/
theorem c5_counterexample :
    Action.callCreate ⟨512, 384⟩ ∈
      (handle_mode_selection oC5 "funstickers_by_testbot" cC5 "mode_fit").actions ∧
    (handle_mode_selection oC5 "funstickers_by_testbot" cC5 "mode_fit").raised =
      some (.badRequest "message is not modified") ∧
    (handle_mode_selection oC5 "funstickers_by_testbot" cC5 "mode_fit").conv.fsm =
      some () ∧
    (handle_mode_selection oC5 "funstickers_by_testbot" cC5 "mode_fit").conv.photoBytes =
      some 5 := by decide

/-- C5 (amended): every terminal transition that completes its final
status-message edit ends with the session cleared — the mode-selection
handler on all of its paths, and the photo handler on every failure path
(download failure as well as a failing prompt edit): whenever the photo
handler returns without raising, either the flow continued into the
waiting state with the downloaded bytes stored, or the session is cleared;
when the final edit raises, the exception escapes and the session persists
(see the counterexample). -/
theorem c5_amended_terminal_clears :
    (∀ (o : Oracle) (pn : String) (c : Conv) (d : String),
      (handle_mode_selection o pn c d).raised = none →
      (handle_mode_selection o pn c d).conv.fsm = none ∧
      (handle_mode_selection o pn c d).conv.photoBytes = none) ∧
    (∀ (o : Oracle) (c : Conv) (mid : Nat),
      (handle_photo_start o c mid).raised = none →
      ((handle_photo_start o c mid).conv.fsm = some () ∧
        ∃ b, o.download = .ok b ∧
          (handle_photo_start o c mid).conv.photoBytes = some b) ∨
      ((handle_photo_start o c mid).conv.fsm = none ∧
       (handle_photo_start o c mid).conv.photoBytes = none)) := by
  constructor
  · intro o pn c d h
    obtain ⟨i, c2, acts2, ft2, he⟩ := handle_mode_shape o pn c d
    rw [he] at h ⊢
    exact finalEdit_clears _ _ _ _ _ h
  · intro o c mid h
    unfold handle_photo_start at h ⊢
    cases hdl : o.download with
    | error e =>
        rw [hdl] at h
        exact Or.inr (finalEdit_clears _ _ _ _ _ h)
    | ok bytes =>
        rw [hdl] at h
        dsimp only at h ⊢
        cases hde : doEdit o 0 ⟨some (), some bytes, some mid, ackText⟩ promptText with
        | ok c2 =>
            dsimp only at h ⊢
            left
            have hc2 : c2 = ⟨some (), some bytes, some mid, promptText⟩ := by
              simpa using doEdit_ok_eq o 0 _ c2 promptText hde
            rw [hc2]
            exact ⟨rfl, bytes, rfl, rfl⟩
        | error ex =>
            rw [hde] at h
            exact Or.inr (finalEdit_clears _ _ _ _ _ h)

/-- Oracle exercising the photo handler's prompt-edit-failure path: the
download succeeds, the prompt edit (call 0) fails transiently, and the
error-reporting edit (call 1) is accepted. -/
def oC5e : Oracle :=
  { download := .ok 3
    removeBg := fun _ => .ok ⟨100, 100⟩
    getStickerSet := .error .notFound
    createSticker := .ok ()
    addSticker := .ok ()
    rejectUnmodified := false
    editFail := fun n => if n = 0 then some (.other "request timed out") else none }

/-- C5 witness: the amended theorem applied to a concrete mode-selection
run whose final edit is accepted, and to a concrete photo run whose prompt
edit fails but whose error-reporting edit completes — both end cleared. -/
theorem c5_amended_terminal_clears_witness :
    ((handle_mode_selection oC2 "pn5" cC5 "mode_fit").conv.fsm = none ∧
     (handle_mode_selection oC2 "pn5" cC5 "mode_fit").conv.photoBytes = none) ∧
    ((handle_photo_start oC5e cC5 11).conv.fsm = none ∧
     (handle_photo_start oC5e cC5 11).conv.photoBytes = none) :=
  ⟨c5_amended_terminal_clears.1 oC2 "pn5" cC5 "mode_fit" (by decide),
   (c5_amended_terminal_clears.2 oC5e cC5 11 (by decide)).resolve_left
     (fun hl => absurd hl.1 (by decide))⟩

/-- C10: on the successful-publish path of mode selection — the create
branch and the append branch alike — the status message is edited twice in
succession with the identical final success text (once inside the `try`
block at line 240 and once after it at line 254), and `state.clear()` runs
only after the second edit completes: the session ends cleared when the
second edit is accepted, while any failure of the second edit — in
particular the transport rejecting an edit whose content is unchanged —
makes the handler raise and leaves the session populated. -/
theorem c10_duplicate_success_edit :
    (∀ (o : Oracle) (pn : String) (c : Conv) (d : String) (b : Nat) (img : Img),
      c.photoBytes = some b → o.removeBg b = .ok img →
      (pack_exists pn o.getStickerSet).1 = false → o.createSticker = .ok () →
      c.statusText ≠ createdText (extractMode d) pn → o.editFail 0 = none →
      (handle_mode_selection o pn c d).actions =
        [.answerCb "Processing your choice...",
         .normalize b (extractMode d),
         .callGetStickerSet,
         .callCreate (resize_to_sticker img (extractMode d)).img,
         .editMsg c.waitMessageId (createdText (extractMode d) pn),
         .editMsg c.waitMessageId (createdText (extractMode d) pn)] ∧
      (o.rejectUnmodified = false → o.editFail 1 = none →
        (handle_mode_selection o pn c d).raised = none ∧
        (handle_mode_selection o pn c d).conv.fsm = none ∧
        (handle_mode_selection o pn c d).conv.photoBytes = none) ∧
      (o.rejectUnmodified = true → o.editFail 1 = none →
        (handle_mode_selection o pn c d).raised =
          some (.badRequest "message is not modified") ∧
        (handle_mode_selection o pn c d).conv.fsm = c.fsm ∧
        (handle_mode_selection o pn c d).conv.photoBytes = some b) ∧
      (∀ e, o.editFail 1 = some e →
        (handle_mode_selection o pn c d).raised = some e ∧
        (handle_mode_selection o pn c d).conv.fsm = c.fsm ∧
        (handle_mode_selection o pn c d).conv.photoBytes = some b)) ∧
    (∀ (o : Oracle) (pn : String) (c : Conv) (d : String) (b : Nat) (img : Img),
      c.photoBytes = some b → o.removeBg b = .ok img →
      (pack_exists pn o.getStickerSet).1 = true → o.addSticker = .ok () →
      c.statusText ≠ addedText (extractMode d) pn → o.editFail 0 = none →
      (handle_mode_selection o pn c d).actions =
        [.answerCb "Processing your choice...",
         .normalize b (extractMode d),
         .callGetStickerSet,
         .callAdd (resize_to_sticker img (extractMode d)).img,
         .editMsg c.waitMessageId (addedText (extractMode d) pn),
         .editMsg c.waitMessageId (addedText (extractMode d) pn)] ∧
      (o.rejectUnmodified = false → o.editFail 1 = none →
        (handle_mode_selection o pn c d).raised = none ∧
        (handle_mode_selection o pn c d).conv.fsm = none ∧
        (handle_mode_selection o pn c d).conv.photoBytes = none) ∧
      (o.rejectUnmodified = true → o.editFail 1 = none →
        (handle_mode_selection o pn c d).raised =
          some (.badRequest "message is not modified") ∧
        (handle_mode_selection o pn c d).conv.fsm = c.fsm ∧
        (handle_mode_selection o pn c d).conv.photoBytes = some b) ∧
      (∀ e, o.editFail 1 = some e →
        (handle_mode_selection o pn c d).raised = some e ∧
        (handle_mode_selection o pn c d).conv.fsm = c.fsm ∧
        (handle_mode_selection o pn c d).conv.photoBytes = some b)) := by
  constructor
  · intro o pn c d b img hb hrb hex hcr hst h0
    have hred : handle_mode_selection o pn c d =
        successEdits o c
          [.answerCb "Processing your choice...",
           .normalize b (extractMode d),
           .callGetStickerSet,
           .callCreate (resize_to_sticker img (extractMode d)).img]
          (createdText (extractMode d) pn) := by
      unfold handle_mode_selection
      simp only [hb, hrb, if_pos hex, hcr]
      rfl
    rw [hred]
    have hdbl := successEdits_double o c
      [.answerCb "Processing your choice...",
       .normalize b (extractMode d),
       .callGetStickerSet,
       .callCreate (resize_to_sticker img (extractMode d)).img]
      (createdText (extractMode d) pn) hst h0
    refine ⟨hdbl.1, hdbl.2.1, ?_, ?_⟩
    · intro h1 h2
      obtain ⟨r1, r2, r3⟩ := hdbl.2.2.1 h1 h2
      exact ⟨r1, r2, by rw [r3, hb]⟩
    · intro e he
      obtain ⟨r1, r2, r3⟩ := hdbl.2.2.2 e he
      exact ⟨r1, r2, by rw [r3, hb]⟩
  · intro o pn c d b img hb hrb hexT hadd hst h0
    have hred : handle_mode_selection o pn c d =
        successEdits o c
          [.answerCb "Processing your choice...",
           .normalize b (extractMode d),
           .callGetStickerSet,
           .callAdd (resize_to_sticker img (extractMode d)).img]
          (addedText (extractMode d) pn) := by
      unfold handle_mode_selection
      have hnex : ¬ ((pack_exists pn o.getStickerSet).1 = false) := by
        simp [hexT]
      simp only [hb, hrb, if_neg hnex, hadd]
      rfl
    rw [hred]
    have hdbl := successEdits_double o c
      [.answerCb "Processing your choice...",
       .normalize b (extractMode d),
       .callGetStickerSet,
       .callAdd (resize_to_sticker img (extractMode d)).img]
      (addedText (extractMode d) pn) hst h0
    refine ⟨hdbl.1, hdbl.2.1, ?_, ?_⟩
    · intro h1 h2
      obtain ⟨r1, r2, r3⟩ := hdbl.2.2.1 h1 h2
      exact ⟨r1, r2, by rw [r3, hb]⟩
    · intro e he
      obtain ⟨r1, r2, r3⟩ := hdbl.2.2.2 e he
      exact ⟨r1, r2, by rw [r3, hb]⟩

/-- Concrete oracle for the duplicate-edit scenario on the create branch:
the pack does not exist, the create call succeeds, and the transport
rejects unchanged edits. -/
def oC10 : Oracle :=
  { download := .ok 0
    removeBg := fun _ => .ok ⟨640, 480⟩
    getStickerSet := .error .notFound
    createSticker := .ok ()
    addSticker := .ok ()
    rejectUnmodified := true
    editFail := fun _ => none }

/-- Same scenario on the append branch: the pack exists and the append
call succeeds. -/
def oC10a : Oracle :=
  { download := .ok 0
    removeBg := fun _ => .ok ⟨640, 480⟩
    getStickerSet := .ok ()
    createSticker := .ok ()
    addSticker := .ok ()
    rejectUnmodified := true
    editFail := fun _ => none }

/-- Concrete conversation awaiting a mode choice. -/
def cC10 : Conv :=
  { fsm := some (), photoBytes := some 8, waitMessageId := some 12,
    statusText := promptText }

/-- C10 witness: on concrete successful publishes through both branches —
pack created, and sticker appended — with a transport rejecting unchanged
edits, the handler raises at the duplicated edit and the session
persists. -/
theorem c10_duplicate_success_edit_witness :
    ((handle_mode_selection oC10 "pn10" cC10 "mode_square").raised =
        some (.badRequest "message is not modified") ∧
      (handle_mode_selection oC10 "pn10" cC10 "mode_square").conv.fsm = cC10.fsm ∧
      (handle_mode_selection oC10 "pn10" cC10 "mode_square").conv.photoBytes = some 8) ∧
    ((handle_mode_selection oC10a "pn10" cC10 "mode_fit").raised =
        some (.badRequest "message is not modified") ∧
      (handle_mode_selection oC10a "pn10" cC10 "mode_fit").conv.fsm = cC10.fsm ∧
      (handle_mode_selection oC10a "pn10" cC10 "mode_fit").conv.photoBytes = some 8) :=
  ⟨(c10_duplicate_success_edit.1 oC10 "pn10" cC10 "mode_square" 8 ⟨640, 480⟩
      rfl rfl rfl rfl (by decide) rfl).2.2.1 rfl rfl,
   (c10_duplicate_success_edit.2 oC10a "pn10" cC10 "mode_fit" 8 ⟨640, 480⟩
      rfl rfl rfl rfl (by decide) rfl).2.2.1 rfl rfl⟩

/-- C9: the normalizer's 512-bound holds only for the two recognized
modes — any other mode string skips both the crop and the resize and the
background-removed image keeps its original dimensions; the dispatcher
accepts every callback whose data starts with "mode_", handing the handler
the token between the first and second underscore as the mode, so such a
mode reaches the publication call with the original dimensions. -/
theorem c9_unrecognized_mode_passthrough :
    (∀ (img : Img) (mode : String), mode ≠ "fit" → mode ≠ "square" →
      resize_to_sticker img mode = ⟨img, none, false⟩) ∧
    (∀ (o : Oracle) (pn : String) (c : Conv) (d : String),
      c.fsm = some () → hasModePre d.data = true →
      dispatchCallback o pn c d = handle_mode_selection o pn c d) ∧
    (∀ t : String, '_' ∉ t.data → extractMode ("mode_" ++ t) = t) ∧
    (∀ (o : Oracle) (pn : String) (c : Conv) (d : String) (b : Nat) (img : Img),
      c.fsm = some () → hasModePre d.data = true →
      c.photoBytes = some b → o.removeBg b = .ok img →
      (pack_exists pn o.getStickerSet).1 = false → o.createSticker = .ok () →
      Action.callCreate (resize_to_sticker img (extractMode d)).img ∈
        (dispatchCallback o pn c d).actions) := by
  refine ⟨fun img mode h1 h2 => resize_other_eq img mode h1 h2, ?_, ?_, ?_⟩
  · intro o pn c d hf hm
    unfold dispatchCallback
    rw [if_pos ⟨hf, hm⟩]
  · intro t ht
    obtain ⟨data⟩ := t
    have hdata : ("mode_" ++ String.mk data).data =
        'm' :: 'o' :: 'd' :: 'e' :: '_' :: data := rfl
    unfold extractMode
    rw [hdata]
    simp [splitU, splitU_no_underscore data ht]
  · intro o pn c d b img hf hm hb hrb hex hcs
    unfold dispatchCallback
    rw [if_pos ⟨hf, hm⟩]
    unfold handle_mode_selection
    simp only [hb, hrb, if_pos hex, hcs]
    apply successEdits_mem
    simp

/-- Concrete oracle for the unrecognized-mode scenario. -/
def oC9 : Oracle :=
  { download := .ok 0
    removeBg := fun _ => .ok ⟨777, 333⟩
    getStickerSet := .error .notFound
    createSticker := .ok ()
    addSticker := .ok ()
    rejectUnmodified := false
    editFail := fun _ => none }

/-- Concrete conversation awaiting a mode choice. -/
def cC9 : Conv :=
  { fsm := some (), photoBytes := some 6, waitMessageId := some 2,
    statusText := promptText }

/-- C9 witness: the callback data "mode_orig" is accepted, its mode token
"orig" is neither fit nor square, and the 777x333 image reaches the
create-pack call at its original dimensions. -/
theorem c9_unrecognized_mode_passthrough_witness :
    resize_to_sticker ⟨777, 333⟩ "orig" = ⟨⟨777, 333⟩, none, false⟩ ∧
    dispatchCallback oC9 "pn9" cC9 "mode_orig" =
      handle_mode_selection oC9 "pn9" cC9 "mode_orig" ∧
    extractMode ("mode_" ++ "orig") = "orig" ∧
    Action.callCreate (resize_to_sticker ⟨777, 333⟩ (extractMode "mode_orig")).img ∈
      (dispatchCallback oC9 "pn9" cC9 "mode_orig").actions := by
  obtain ⟨p1, p2, p3, p4⟩ := c9_unrecognized_mode_passthrough
  exact ⟨p1 ⟨777, 333⟩ "orig" (by decide) (by decide),
    p2 oC9 "pn9" cC9 "mode_orig" rfl (by decide),
    p3 "orig" (by decide),
    p4 oC9 "pn9" cC9 "mode_orig" 6 ⟨777, 333⟩ rfl (by decide) rfl rfl rfl rfl⟩

/-- C6 counterexample: with a present token but a missing owning-user id
(`OWNER_USER_ID` unset parses to 0), startup proceeds to serve — only a
warning is logged — refuting the owner-id half of the claim. -/
theorem c6_counterexample :
    mainStartup { token := some "123:abc", ownerId := 0 } = .served true := by decide

/-- C6 (amended): a missing (or empty) bot token aborts startup before
serving; a missing owning-user id only logs a warning and the process
proceeds to initialize and serve. -/
theorem c6_amended_token_fatal_owner_warns (cfg : BotConfig) :
    ((cfg.token = none ∨ cfg.token = some "") →
      mainStartup cfg = .abortedNoToken) ∧
    (cfg.token ≠ none → cfg.token ≠ some "" →
      mainStartup cfg = .served (decide (cfg.ownerId = 0))) := by
  constructor
  · intro h
    unfold mainStartup
    rw [if_pos h]
  · intro h1 h2
    unfold mainStartup
    rw [if_neg (by tauto)]

/-- C6 witness: the amended theorem applied to a missing token and to a
present token with a present owner id. -/
theorem c6_amended_token_fatal_owner_warns_witness :
    mainStartup { token := none, ownerId := 42 } = .abortedNoToken ∧
    mainStartup { token := some "123:abc", ownerId := 42 } =
      .served (decide ((42 : Nat) = 0)) :=
  ⟨(c6_amended_token_fatal_owner_warns { token := none, ownerId := 42 }).1
      (Or.inl rfl),
    (c6_amended_token_fatal_owner_warns { token := some "123:abc", ownerId := 42 }).2
      (by decide) (by decide)⟩

/-- C7: the pack identity is computed by `init_bot_info` from the
configured pack-name prefix and the lowercased bot username joined by the
fixed separator, using exactly one platform query; afterwards every read
of the cached name returns the identical string and leaves the process
state — in particular the platform-query count — untouched. -/
theorem c7_pack_identity_cached (pre uname : String) (s0 : ProcSt) (n : Nat) :
    (init_bot_info pre uname s0).packName =
      some (pre ++ "_by_" ++ lowerStr uname) ∧
    (init_bot_info pre uname s0).getMeCalls = s0.getMeCalls + 1 ∧
    (runReads (init_bot_info pre uname s0) n).2 = init_bot_info pre uname s0 ∧
    ∀ v ∈ (runReads (init_bot_info pre uname s0) n).1,
      v = some (pre ++ "_by_" ++ lowerStr uname) := by
  refine ⟨rfl, rfl, (runReads_spec _ n).1, fun v hv => ?_⟩
  have h := (runReads_spec (init_bot_info pre uname s0) n).2 v hv
  simpa [init_bot_info, derivePackName] using h

/-- C7 witness: three reads after initialization with prefix "funstickers"
and platform username "MyBot" all see "funstickers_by_mybot" and the query
count stays at one. -/
theorem c7_pack_identity_cached_witness :
    (init_bot_info "funstickers" "MyBot" ⟨none, none, 0⟩).packName =
      some ("funstickers" ++ "_by_" ++ lowerStr "MyBot") ∧
    (init_bot_info "funstickers" "MyBot" ⟨none, none, 0⟩).getMeCalls = 0 + 1 ∧
    (runReads (init_bot_info "funstickers" "MyBot" ⟨none, none, 0⟩) 3).2 =
      init_bot_info "funstickers" "MyBot" ⟨none, none, 0⟩ ∧
    ∀ v ∈ (runReads (init_bot_info "funstickers" "MyBot" ⟨none, none, 0⟩) 3).1,
      v = some ("funstickers" ++ "_by_" ++ lowerStr "MyBot") :=
  c7_pack_identity_cached "funstickers" "MyBot" ⟨none, none, 0⟩ 3

/-- C8: `pack_exists` is a total function of the probe outcome — it cannot
raise — returning true exactly when the platform returns the pack, false
with no log on a not-found answer, and false with an error log on any
other failure instead of propagating it. -/
theorem c8_pack_exists_error_mapping (pn : String) (r : Except TgError Unit) :
    ((pack_exists pn r).1 = true ↔ r = .ok ()) ∧
    pack_exists pn (.error .notFound) = (false, []) ∧
    (∀ m, (pack_exists pn (.error (.badRequest m))).1 = false ∧
      (pack_exists pn (.error (.badRequest m))).2 ≠ []) ∧
    (∀ m, (pack_exists pn (.error (.other m))).1 = false ∧
      (pack_exists pn (.error (.other m))).2 ≠ []) := by
  refine ⟨?_, rfl, fun m => ⟨rfl, by simp [pack_exists]⟩,
    fun m => ⟨rfl, by simp [pack_exists]⟩⟩
  cases r with
  | ok u => cases u; simp [pack_exists]
  | error e => cases e <;> simp [pack_exists]

/-- C8 witness: the mapping applied to a concrete flood-wait style error
outcome. -/
theorem c8_pack_exists_error_mapping_witness :
    ((pack_exists "funstickers_by_testbot" (.error (.other "flood wait"))).1 = true ↔
      (.error (.other "flood wait") : Except TgError Unit) = .ok ()) ∧
    (pack_exists "funstickers_by_testbot" (.error (.other "flood wait"))).1 = false ∧
    (pack_exists "funstickers_by_testbot" (.error (.other "flood wait"))).2 ≠ [] :=
  ⟨(c8_pack_exists_error_mapping "funstickers_by_testbot"
      (.error (.other "flood wait"))).1,
    (c8_pack_exists_error_mapping "funstickers_by_testbot"
      (.error (.other "flood wait"))).2.2.2 "flood wait"⟩

/-- C4 witness: the fit-mode theorem instantiated on a concrete 1024x600
image, whose thumbnail is 512x300. -/
theorem c4_fit_bounds_and_aspect_witness :
    0 < 1024 ∧ 0 < 600 ∧
    ((resize_to_sticker ⟨1024, 600⟩ "fit").cropBox = none ∧
    (resize_to_sticker ⟨1024, 600⟩ "fit").img.width ≤ 512 ∧
    (resize_to_sticker ⟨1024, 600⟩ "fit").img.height ≤ 512 ∧
    (resize_to_sticker ⟨1024, 600⟩ "fit").img.width ≤ 1024 ∧
    (resize_to_sticker ⟨1024, 600⟩ "fit").img.height ≤ 600 ∧
    (1024 ≤ 512 → 600 ≤ 512 → (resize_to_sticker ⟨1024, 600⟩ "fit").img = ⟨1024, 600⟩) ∧
    Nat.dist ((resize_to_sticker ⟨1024, 600⟩ "fit").img.width * 600)
      ((resize_to_sticker ⟨1024, 600⟩ "fit").img.height * 1024) < max 1024 600) :=
  ⟨by norm_num, by norm_num, c4_fit_bounds_and_aspect 1024 600 (by norm_num) (by norm_num)⟩

end Bot
